import Mathlib

/-!
Verification of the placekey_poc address-normalization program.

The development shallowly embeds `src/main.py`: Python strings are lists of
characters, Python dictionaries with string keys are association lists, a
Python function that can raise is a function into `Except PyError`, and the
two external HTTP services (the geocoder and the placekey lookup) are
supplied as oracle functions.  The embedded functions keep the names of the
Python functions they translate: `result_to_dict`, `parse_address`,
`encode_placekey`, `encode_csv`.
-/

set_option maxRecDepth 8000

deriving instance DecidableEq for Except

namespace Placekey

/-- Python strings are modelled as lists of characters so that every string
operation the program uses (split, strip, upper, join, startswith) is a
structurally recursive function the kernel can evaluate. -/
abbrev PyStr := List Char

/-- Shorthand turning a Lean string literal into the character-list model. -/
def S (s : String) : PyStr := s.toList

/-- Python `str.upper` (the program only feeds it ASCII). -/
def pyUpper (s : PyStr) : PyStr := s.map Char.toUpper

/-- Python `str.strip`: drop whitespace from both ends. -/
def pyStrip (s : PyStr) : PyStr :=
  ((s.dropWhile Char.isWhitespace).reverse.dropWhile Char.isWhitespace).reverse

/-- Python `str.split(", ")` as used by `parse_address`: split on the exact
two-character separator, scanning left to right, keeping empty parts; the
split of the empty string is `[""]`, so the result is never empty. -/
def splitCommaSpace : PyStr → List PyStr
  | [] => [[]]
  | ',' :: ' ' :: rest => [] :: splitCommaSpace rest
  | c :: rest =>
    match splitCommaSpace rest with
    | [] => [[c]]
    | p :: ps => (c :: p) :: ps

/-- Helper for Python `str.split()` with no argument: split at every single
whitespace character, keeping the empty pieces between adjacent separators. -/
def splitWsRuns : PyStr → List PyStr
  | [] => [[]]
  | c :: rest =>
    if c.isWhitespace then [] :: splitWsRuns rest
    else
      match splitWsRuns rest with
      | [] => [[c]]
      | p :: ps => (c :: p) :: ps

/-- Python `str.split()` with no argument: runs of whitespace separate the
pieces and empty pieces are dropped, so the result of splitting a string of
pure whitespace (or the empty string) is the empty list. -/
def pySplitWs (s : PyStr) : List PyStr := (splitWsRuns s).filter (fun p => !p.isEmpty)

/-- The payload sent to the placekey lookup service: the Python dict built by
`result_to_dict` / `parse_address`.  `location_name = none` means the key is
absent from the dict (the program never stores a `None` value under that
key); for the remaining string-valued fields the key is always present and
`none` models a Python `None` value. -/
structure Payload where
  street_address : Option PyStr
  region : Option PyStr
  postal_code : Option PyStr
  iso_country_code : Option PyStr
  city : Option PyStr
  latitude : Int
  longitude : Int
  location_name : Option PyStr
  deriving DecidableEq, Repr

/-- The Python exceptions the program can raise.  `valueError` is
`parse_address`'s `ValueError("Could not map country code")`;
`notFound d err` is the `ValueError` raised by `encode_placekey` on the
second failed lookup, whose message interpolates the (fallback) payload `d`
and the error field `err` of the lookup response. -/
inductive PyError where
  | keyError
  | attrError
  | typeError
  | indexError
  | valueError (msg : PyStr)
  | notFound (d : Payload) (err : PyStr)
  deriving DecidableEq, Repr

/-- Which exceptions the Python class `ValueError` catches: both the country
error of `parse_address` and the not-found error of `encode_placekey` are
`ValueError`s in the source. -/
def PyError.isValueError : PyError → Bool
  | .valueError _ => true
  | .notFound _ _ => true
  | _ => false

/-- Python `d[k]` on an optional lookup result: a missing key raises
`KeyError`. -/
def getKey {α : Type} (o : Option α) : Except PyError α :=
  match o with
  | some a => Except.ok a
  | none => Except.error PyError.keyError

/-- Python `list.pop()`: return the last element and the remaining prefix;
popping an empty list raises `IndexError`. -/
def popLast {α : Type} : List α → Except PyError (α × List α)
  | [] => Except.error PyError.indexError
  | x :: xs =>
    match popLast xs with
    | Except.error _ => Except.ok (x, [])
    | Except.ok (y, ys) => Except.ok (y, x :: ys)

/-- Python f-string interpolation of a value that may be `None`. -/
def fstr : Option PyStr → PyStr
  | some s => s
  | none => S "None"

/-- A context token of a mapbox raw result: a dict carrying a category id, a
text, and possibly a short code (`short_code` is absent on most tokens). -/
structure CtxToken where
  id : PyStr
  text : PyStr
  short_code : Option PyStr
  deriving DecidableEq, Repr

/-- The nested `properties` sub-object of a POI raw result. -/
structure Properties where
  address : Option PyStr
  deriving DecidableEq, Repr

/-- The raw mapbox result dictionary, restricted to the keys the program
reads.  An outer `none` models a missing key: `context`, `text` and
`place_type` are read with `[]` (raising `KeyError` when absent), while
`properties` and `address` are read with `.get` (tolerating absence). -/
structure RawResult where
  context : Option (List CtxToken)
  text : Option PyStr
  place_type : Option (List PyStr)
  properties : Option Properties
  address : Option PyStr
  deriving DecidableEq, Repr

/-- A geopy `Location`: the formatted address string, the raw mapbox
dictionary, and the coordinates (modelled as integers; no claim involves
coordinate arithmetic, they are only copied through). -/
structure Location where
  address : PyStr
  raw : RawResult
  latitude : Int
  longitude : Int
  deriving DecidableEq, Repr

/-- `next(iter([y["text"] for y in context if y["id"].startswith(pre)]), None)`
from `result_to_dict` lines 159-161: the text of the first context token
whose id starts with `pre`, or `None`. -/
def firstText (pre : PyStr) (context : List CtxToken) : Option PyStr :=
  ((context.filter (fun y => pre.isPrefixOf y.id)).map (fun y => y.text)).head?

/-- The list comprehension `[y["short_code"] for y in context if
y["id"].startswith("country")]` from `result_to_dict` line 162: it is built
eagerly, so a country-prefixed token with no `short_code` key raises
`KeyError` even if it is not the first one. -/
def countryShortCodes (context : List CtxToken) : Except PyError (List PyStr) :=
  (context.filter (fun y => (S "country").isPrefixOf y.id)).mapM (fun y => getKey y.short_code)

/-- `AddressNormalizer.result_to_dict` (src/main.py lines 139-175). -/
def result_to_dict (result : Location) : Except PyError Payload := do
  let context ← getKey result.raw.context
  let result_text ← getKey result.raw.text
  let place_type ← getKey result.raw.place_type
  let is_poi : Bool := decide (0 < (place_type.filter (fun y => y == S "poi")).length)
  let address ←
    if is_poi then
      match result.raw.properties with
      | none => Except.error PyError.attrError
      | some properties => Except.ok properties.address
    else Except.ok result.raw.address
  let city := firstText (S "place") context
  let region := firstText (S "region") context
  let postcode := firstText (S "postcode") context
  let codes ← countryShortCodes context
  let country_code := codes.head?
  Except.ok {
    street_address := if is_poi then address else some (fstr address ++ [' '] ++ result_text)
    region := region
    postal_code := postcode
    iso_country_code := country_code
    city := city
    latitude := result.latitude
    longitude := result.longitude
    location_name := if is_poi then some result_text else none }

/-- `AddressNormalizer.parse_address` (src/main.py lines 93-136), the
fallback parser over the formatted address string. -/
def parse_address (location : Location) : Except PyError Payload := do
  let address := location.address
  let parts := (splitCommaSpace address).map (fun x => pyStrip (pyUpper x))
  let (country, parts) ← popLast parts
  let (region_zip, parts) ← popLast parts
  let (city, parts) ← popLast parts
  let (address, parts) ← popLast parts
  let location_name := List.intercalate (S ", ") parts
  let region_parts := pySplitWs region_zip
  let (zipcode, region_parts) ← popLast region_parts
  let region := List.intercalate (S " ") region_parts
  let country_code ←
    if country = pyUpper (S "United States") then Except.ok (S "us")
    else Except.error (PyError.valueError (S "Could not map country code"))
  let d : Payload := {
    street_address := some address
    region := some region
    postal_code := some zipcode
    location_name := some location_name
    city := some city
    iso_country_code := some country_code
    latitude := location.latitude
    longitude := location.longitude }
  Except.ok (if (pyStrip location_name).length < 1 then { d with location_name := none } else d)

/-- The placekey lookup response: the service returns either a dictionary
with a `placekey` (and query id) or a dictionary with an `error` field; the
program only tests `"error" in pk` and reads `pk["placekey"]`. -/
inductive PKResult where
  | ok (placekey : PyStr)
  | err (msg : PyStr)
  deriving DecidableEq, Repr

/-- Log lines emitted by `encode_placekey`: the `logging.error` for an
unparsable raw mapbox result (line 71) and the `logging.warning` after a
failed first lookup (line 84), which interpolates the attempted payload and
the error field of the lookup response. -/
inductive LogEntry where
  | mappingError
  | firstAttemptWarning (d : Payload) (err : PyStr)
  deriving DecidableEq, Repr

/-- The observable behaviour of one `encode_placekey` call: the returned
pair or raised exception, the log lines emitted, and the list of payloads
passed to `lookup_placekey`, in call order. -/
structure EncodeOutcome where
  result : Except PyError (Location × PyStr)
  logs : List LogEntry
  attempts : List Payload
  deriving DecidableEq, Repr

/-- The two external services of `AddressNormalizer`, supplied as oracles:
the (deterministic, rate-limited) geocoder and the placekey lookup. -/
structure Services where
  geocode : PyStr → Location
  lookup_placekey : Payload → PKResult

/-- Lines 73-78 of `encode_placekey`: merge a caller-supplied point of
interest name into the payload.  `if point_of_interest_name:` is a Python
truthiness test, so `None` and the empty string both skip the merge. -/
def apply_poi_name (d : Payload) (point_of_interest_name : Option PyStr) (prefer_my_name : Bool) :
    Payload :=
  match point_of_interest_name with
  | none => d
  | some name =>
    if name = [] then d
    else if d.location_name = none then { d with location_name := some name }
    else if prefer_my_name then { d with location_name := some name }
    else d

/-- `AddressNormalizer.encode_placekey` (src/main.py lines 54-91).  The
`except KeyError` around `result_to_dict` logs and leaves `d = None`, after
which `"location_name" in d` / `lookup_placekey(**d)` raises `TypeError`
before any lookup call; an `AttributeError` (POI result with no
`properties` key) is not caught and propagates directly. -/
def encode_placekey (self : Services) (address : PyStr) (point_of_interest_name : Option PyStr)
    (prefer_my_name : Bool) : EncodeOutcome :=
  let location := self.geocode address
  match result_to_dict location with
  | Except.error PyError.keyError =>
    { result := Except.error PyError.typeError
      logs := [LogEntry.mappingError]
      attempts := [] }
  | Except.error e => { result := Except.error e, logs := [], attempts := [] }
  | Except.ok d0 =>
    let d := apply_poi_name d0 point_of_interest_name prefer_my_name
    match self.lookup_placekey d with
    | PKResult.ok pk => { result := Except.ok (location, pk), logs := [], attempts := [d] }
    | PKResult.err e1 =>
      match parse_address location with
      | Except.error pe =>
        { result := Except.error pe
          logs := [LogEntry.firstAttemptWarning d e1]
          attempts := [d] }
      | Except.ok d2 =>
        match self.lookup_placekey d2 with
        | PKResult.ok pk =>
          { result := Except.ok (location, pk)
            logs := [LogEntry.firstAttemptWarning d e1]
            attempts := [d, d2] }
        | PKResult.err e2 =>
          { result := Except.error (PyError.notFound d2 e2)
            logs := [LogEntry.firstAttemptWarning d e1]
            attempts := [d, d2] }

/-- A CSV row as produced by `csv.DictReader`: an association list from
column name to cell value (keys are distinct in any dict the program can
actually build). -/
abbrev Row := List (PyStr × PyStr)

/-- Python `dict.get`-style lookup in a row. -/
def dictGet (d : Row) (k : PyStr) : Option PyStr :=
  (d.find? (fun p => p.1 == k)).map (fun p => p.2)

/-- Python `d[k] = v` on a dict: overwrite the existing entry, otherwise
append a new one. -/
def setKey (d : Row) (k v : PyStr) : Row :=
  if d.any (fun p => p.1 == k) then d.map (fun p => if p.1 == k then (k, v) else p)
  else d ++ [(k, v)]

/-- Log lines emitted by `encode_csv` per row: the `logging.info` with the
address and location name, and the `logging.error` when a `ValueError` from
`encode_placekey` is caught. -/
inductive CsvLog where
  | infoRow (address location : PyStr)
  | rowError (address location : PyStr) (e : PyError)
  deriving DecidableEq, Repr

/-- The observable behaviour of one `encode_csv` run: the single header row,
the data rows written before any abort, the log lines, and the exception
re-raised by the outer `except Exception` handler, if any. -/
structure CsvRun where
  header : List PyStr
  rows : List (List PyStr)
  logs : List CsvLog
  error : Option PyError
  deriving Repr

/-- `csv.DictWriter.writerow` with the writer's default `extrasaction =
"raise"` and `restval = ""`: a row holding a key outside `fieldnames`
raises `ValueError` before anything is written; otherwise one cell per
field name is written, empty for a missing key. -/
def writerow (fieldnames : List PyStr) (d : Row) : Except PyError (List PyStr) :=
  if d.any (fun p => !(fieldnames.contains p.1)) then
    Except.error (PyError.valueError (S "dict contains fields not in fieldnames"))
  else Except.ok (fieldnames.map (fun f => (dictGet d f).getD []))

/-- The body of `encode_csv`'s row loop (src/main.py lines 195-212): read
the two configured columns (`KeyError` aborts), log the pair, call
`encode_placekey` catching only `ValueError`, then write the (possibly
updated) copied row.  Returns the log lines emitted and either the written
cells or the exception that escapes the loop body. -/
def process_row (self : Services) (address_column location_name_column : PyStr) (row : Row) :
    List CsvLog × Except PyError (List PyStr) :=
  match dictGet row address_column with
  | none => ([], Except.error PyError.keyError)
  | some address =>
    match dictGet row location_name_column with
    | none => ([], Except.error PyError.keyError)
    | some location =>
      let fieldnames := [location_name_column, address_column, S "placekey"]
      match (encode_placekey self address (some location) false).result with
      | Except.ok (loc, pk) =>
        ([CsvLog.infoRow address location],
          writerow fieldnames (setKey (setKey row (S "placekey") pk) address_column loc.address))
      | Except.error e =>
        if e.isValueError then
          ([CsvLog.infoRow address location, CsvLog.rowError address location e],
            writerow fieldnames row)
        else ([CsvLog.infoRow address location], Except.error e)

/-- The row loop of `encode_csv`: process rows in order, stopping at the
first exception that escapes a loop body (re-raised by the outer handler). -/
def run_rows (self : Services) (address_column location_name_column : PyStr) :
    List Row → List (List PyStr) × List CsvLog × Option PyError
  | [] => ([], [], none)
  | row :: rest =>
    match process_row self address_column location_name_column row with
    | (logs, Except.error e) => ([], logs, some e)
    | (logs, Except.ok cells) =>
      let (cs, ls, err) := run_rows self address_column location_name_column rest
      (cells :: cs, logs ++ ls, err)

/-- `AddressNormalizer.encode_csv` (src/main.py lines 177-216), with file
I/O abstracted to a list of input rows and the written output. -/
def encode_csv (self : Services) (rows : List Row) (address_column location_name_column : PyStr) :
    CsvRun :=
  let (cells, logs, err) := run_rows self address_column location_name_column rows
  { header := [location_name_column, address_column, S "placekey"]
    rows := cells
    logs := logs
    error := err }

/-! Concrete fixtures used to instantiate the theorems below. -/

/-- A raw result with none of the expected keys: `raw["context"]` raises
`KeyError`. -/
def noRaw : RawResult :=
  { context := none, text := none, place_type := none, properties := none, address := none }

/-- A location whose raw result cannot be mapped. -/
def badLoc : Location := { address := S "123 Main St", raw := noRaw, latitude := 0, longitude := 0 }

/-- Services whose geocoder always yields the unmappable location. -/
def cexServices : Services :=
  { geocode := fun _ => badLoc, lookup_placekey := fun _ => PKResult.err (S "no match") }

/-- A context list with one token per category. -/
def goodCtx : List CtxToken :=
  [ { id := S "place.1", text := S "Kenai", short_code := none },
    { id := S "region.1", text := S "Alaska", short_code := some (S "US-AK") },
    { id := S "postcode.1", text := S "99611", short_code := none },
    { id := S "country.1", text := S "United States", short_code := some (S "us") } ]

/-- A well-formed non-POI raw result. -/
def goodRaw : RawResult :=
  { context := some goodCtx, text := some (S "T"), place_type := some [S "address"],
    properties := none, address := some (S "5") }

/-- A well-formed non-POI location whose formatted address the fallback
parser accepts. -/
def goodLoc : Location :=
  { address := S "A, B 1, C, AK 99611, United States", raw := goodRaw,
    latitude := 60, longitude := -151 }

/-- Services whose geocoder yields `goodLoc` and whose lookup always
returns an error response. -/
def wServices : Services :=
  { geocode := fun _ => goodLoc, lookup_placekey := fun _ => PKResult.err (S "no match") }

/-- The primary payload `encode_placekey` builds from `goodLoc` with the
name hint `"N"` applied. -/
def wPrimary : Payload :=
  { street_address := some (S "5 T"), region := some (S "Alaska"),
    postal_code := some (S "99611"), iso_country_code := some (S "us"),
    city := some (S "Kenai"), latitude := 60, longitude := -151,
    location_name := some (S "N") }

/-- The fallback payload `parse_address` builds from `goodLoc`. -/
def wFallback : Payload :=
  { street_address := some (S "B 1"), region := some (S "AK"),
    postal_code := some (S "99611"), iso_country_code := some (S "us"),
    city := some (S "C"), latitude := 60, longitude := -151,
    location_name := some (S "A") }

/-- A well-formed POI raw result. -/
def poiRaw : RawResult :=
  { context := some goodCtx, text := some (S "Store"), place_type := some [S "poi"],
    properties := some { address := some (S "1 Main St") }, address := none }

/-- A location carrying the POI raw result. -/
def poiLoc : Location := { address := S "X", raw := poiRaw, latitude := 1, longitude := 2 }

/-- The location for the spec's fallback-parser round-trip example. -/
def kenaiLoc : Location :=
  { address := S "3 Bears Alaska, 10575 Kenai Spur Hwy, Kenai, AK 99611, United States",
    raw := noRaw, latitude := 0, longitude := 0 }

/-- A formatted address with only three comma-space separated parts. -/
def shortLoc : Location := { address := S "A, B, C", raw := goodRaw, latitude := 0, longitude := 0 }

/-- A formatted address whose region-zip part is empty. -/
def emptyRegionZipLoc : Location :=
  { address := S "A, B, , United States", raw := goodRaw, latitude := 0, longitude := 0 }

/-- Services whose geocoder yields a mappable location with a too-short
formatted address, and whose lookup always errors. -/
def idxServices : Services :=
  { geocode := fun _ => shortLoc, lookup_placekey := fun _ => PKResult.err (S "no match") }

/-- A formatted address ending in a country other than the United States. -/
def canadaLoc : Location :=
  { address := S "1 Main St, Kenai, AK 99611, Canada", raw := noRaw,
    latitude := 0, longitude := 0 }

/-- A formatted address that is a single part. -/
def usOnlyLoc : Location :=
  { address := S "United States", raw := noRaw, latitude := 0, longitude := 0 }

/-- A context list with two place-prefixed tokens, for the within-category
first-match witness. -/
def dupCtx : List CtxToken :=
  [ { id := S "region.9", text := S "Alaska", short_code := some (S "US-AK") },
    { id := S "place.1", text := S "Kenai", short_code := none },
    { id := S "place.2", text := S "Soldotna", short_code := none },
    { id := S "country.1", text := S "United States", short_code := some (S "us") } ]

/-- The condition under which `encode_csv`'s `except ValueError` keeps the
batch going: the row's encode either succeeded or raised a `ValueError`. -/
def resultIsolated : Except PyError (Location × PyStr) → Bool
  | Except.ok _ => true
  | Except.error e => e.isValueError

/-- A payload with no `location_name` key. -/
def hintlessPayload : Payload :=
  { street_address := some (S "5 T"), region := some (S "Alaska"),
    postal_code := some (S "99611"), iso_country_code := some (S "us"),
    city := some (S "Kenai"), latitude := 60, longitude := -151,
    location_name := none }

/-! Lemmas about the fallback parser. -/

/-- Popping a list with last element `x` yields `x` and the prefix. -/
lemma popLast_append {α : Type} (xs : List α) (x : α) :
    popLast (xs ++ [x]) = Except.ok (x, xs) := by
  induction xs with
  | nil => rfl
  | cons y ys ih => simp [popLast, ih]

/-- Characterization of `parse_address` on any formatted address whose
comma-space split has at least four parts and whose region-zip part has at
least one whitespace-separated piece. -/
lemma parse_address_eq (location : Location) (pre : List PyStr)
    (street city region_zip country : PyStr) (rp : List PyStr) (zipcode : PyStr)
    (hparts : (splitCommaSpace location.address).map (fun x => pyStrip (pyUpper x))
      = pre ++ [street, city, region_zip, country])
    (hz : pySplitWs region_zip = rp ++ [zipcode]) :
    parse_address location =
      if country = pyUpper (S "United States") then
        Except.ok {
          street_address := some street
          region := some (List.intercalate (S " ") rp)
          postal_code := some zipcode
          location_name := if (pyStrip (List.intercalate (S ", ") pre)).length < 1 then none
                           else some (List.intercalate (S ", ") pre)
          city := some city
          iso_country_code := some (S "us")
          latitude := location.latitude
          longitude := location.longitude }
      else Except.error (PyError.valueError (S "Could not map country code")) := by
  have e1 : popLast (pre ++ [street, city, region_zip, country])
      = Except.ok (country, pre ++ [street, city, region_zip]) := by
    simpa using popLast_append (pre ++ [street, city, region_zip]) country
  have e2 : popLast (pre ++ [street, city, region_zip])
      = Except.ok (region_zip, pre ++ [street, city]) := by
    simpa using popLast_append (pre ++ [street, city]) region_zip
  have e3 : popLast (pre ++ [street, city]) = Except.ok (city, pre ++ [street]) := by
    simpa using popLast_append (pre ++ [street]) city
  have e4 : popLast (pre ++ [street]) = Except.ok (street, pre) := popLast_append pre street
  have e5 : popLast (rp ++ [zipcode]) = Except.ok (zipcode, rp) := popLast_append rp zipcode
  by_cases hc : country = pyUpper (S "United States")
  · simp only [parse_address, hparts, e1, e2, e3, e4, hz, e5, bind, Except.bind, if_pos hc]
    split <;> rfl
  · simp only [parse_address, hparts, e1, e2, e3, e4, hz, e5, bind, Except.bind, if_neg hc]

/-- C2: on any formatted address splitting on comma-space into at least
four uppercased-and-trimmed parts ending in "UNITED STATES", the fallback
parser pops country, region-zip, city and street address from the end, the
region-zip part's last whitespace piece is the postal code and the rest
joined by spaces is the region, and the remaining leading parts joined by
comma-space form the location name, omitted when empty.  Instantiated by
its witness on the spec's round-trip example. -/
theorem parse_address_algorithm (location : Location) (pre : List PyStr)
    (street city region_zip : PyStr) (rp : List PyStr) (zipcode : PyStr)
    (hparts : (splitCommaSpace location.address).map (fun x => pyStrip (pyUpper x))
      = pre ++ [street, city, region_zip, S "UNITED STATES"])
    (hz : pySplitWs region_zip = rp ++ [zipcode]) :
    parse_address location = Except.ok {
      street_address := some street
      region := some (List.intercalate (S " ") rp)
      postal_code := some zipcode
      location_name := if (pyStrip (List.intercalate (S ", ") pre)).length < 1 then none
                       else some (List.intercalate (S ", ") pre)
      city := some city
      iso_country_code := some (S "us")
      latitude := location.latitude
      longitude := location.longitude } := by
  rw [parse_address_eq location pre street city region_zip (S "UNITED STATES") rp zipcode
      hparts hz, if_pos (by decide)]

/-- Witness for C2: the spec's round-trip example, with exactly the field
values the claim lists. -/
theorem parse_address_algorithm_witness :
    parse_address kenaiLoc = Except.ok {
      street_address := some (S "10575 KENAI SPUR HWY")
      region := some (S "AK")
      postal_code := some (S "99611")
      location_name := some (S "3 BEARS ALASKA")
      city := some (S "KENAI")
      iso_country_code := some (S "us")
      latitude := 0
      longitude := 0 } := by
  rw [parse_address_algorithm kenaiLoc [S "3 BEARS ALASKA"] (S "10575 KENAI SPUR HWY")
    (S "KENAI") (S "AK 99611") [S "AK"] (S "99611") (by decide) (by decide)]
  decide

/-- C7 (counterexample): the claim quantifies over every formatted address
string, but on the one-part string "United States" the parser raises
`IndexError` from the pops before the country check ever runs, so no payload
with `iso_country_code = "us"` is produced. -/
theorem parse_address_us_short_input_error :
    parse_address usOnlyLoc = Except.error PyError.indexError ∧
    (parse_address usOnlyLoc).toOption = none := by
  decide

/-- C7 (amended): on any formatted address with at least four comma-space
parts and a region-zip part with at least one whitespace piece, the parser
maps the country "UNITED STATES" to iso code "us" and fails on any other
country with the `ValueError("Could not map country code")`
(UnsupportedCountry) error, producing no payload. -/
theorem parse_address_country_normalization (location : Location) (pre : List PyStr)
    (street city region_zip country : PyStr) (rp : List PyStr) (zipcode : PyStr)
    (hparts : (splitCommaSpace location.address).map (fun x => pyStrip (pyUpper x))
      = pre ++ [street, city, region_zip, country])
    (hz : pySplitWs region_zip = rp ++ [zipcode]) :
    (country = S "UNITED STATES" →
      ∃ d, parse_address location = Except.ok d ∧ d.iso_country_code = some (S "us")) ∧
    (country ≠ S "UNITED STATES" →
      parse_address location = Except.error (PyError.valueError (S "Could not map country code"))) := by
  have h := parse_address_eq location pre street city region_zip country rp zipcode hparts hz
  constructor
  · intro hc
    rw [h, if_pos (by rw [hc]; decide)]
    exact ⟨_, rfl, rfl⟩
  · intro hc
    rw [h, if_neg (by simpa [show pyUpper (S "United States") = S "UNITED STATES" from by decide]
      using hc)]

/-- Witness for C7: a four-part formatted address ending in "Canada" fails
with the unsupported-country `ValueError`. -/
theorem parse_address_country_normalization_witness :
    parse_address canadaLoc
      = Except.error (PyError.valueError (S "Could not map country code")) :=
  (parse_address_country_normalization canadaLoc [] (S "1 MAIN ST") (S "KENAI")
    (S "AK 99611") (S "CANADA") [S "AK"] (S "99611") (by decide) (by decide)).2 (by decide)

/-- C10: the fallback parser assumes at least four comma-space parts and a
non-empty region-zip part; a three-part address and an address with an
empty region-zip part both raise `IndexError` (`popLast` of an empty list),
which is not a `ValueError` (so none of the spec's per-address error kinds)
and propagates out of `encode_placekey` uncaught. -/
theorem parse_address_out_of_bounds :
    popLast ([] : List PyStr) = Except.error PyError.indexError ∧
    parse_address shortLoc = Except.error PyError.indexError ∧
    parse_address emptyRegionZipLoc = Except.error PyError.indexError ∧
    PyError.indexError.isValueError = false ∧
    (encode_placekey idxServices (S "123") none false).result
      = Except.error PyError.indexError := by
  decide

/-! Lemmas about the primary field mapper. -/

/-- Mapping `getKey ∘ short_code` over tokens that all carry a short code
succeeds and returns those short codes. -/
lemma mapM_shortCodes (xs : List CtxToken) (h : ∀ y ∈ xs, y.short_code.isSome = true) :
    xs.mapM (fun y => getKey y.short_code)
      = Except.ok (xs.map (fun y => y.short_code.getD [])) := by
  induction xs with
  | nil => rfl
  | cons x t ih =>
    obtain ⟨sc, hsc⟩ := Option.isSome_iff_exists.mp (h x (by simp))
    have ih' := ih (fun y hy => h y (List.mem_cons_of_mem _ hy))
    simp only [List.mapM_cons, hsc, getKey, bind, Except.bind, pure, Except.pure] at ih' ⊢
    rw [ih']
    simp [hsc]

/-- The country short-code comprehension succeeds when every
country-prefixed token has a `short_code` key. -/
lemma countryShortCodes_ok (context : List CtxToken)
    (h : ∀ y ∈ context, (S "country").isPrefixOf y.id = true → y.short_code.isSome = true) :
    countryShortCodes context = Except.ok
      ((context.filter (fun y => (S "country").isPrefixOf y.id)).map
        (fun y => y.short_code.getD [])) := by
  unfold countryShortCodes
  exact mapM_shortCodes _ (fun y hy => h y (List.mem_filter.mp hy).1 (List.mem_filter.mp hy).2)

/-- Evaluation of `result_to_dict` on a well-formed POI result. -/
lemma result_to_dict_poi_eq (result : Location) (context : List CtxToken) (result_text : PyStr)
    (place_type : List PyStr) (properties : Properties) (codes : List PyStr)
    (hc : result.raw.context = some context) (ht : result.raw.text = some result_text)
    (hp : result.raw.place_type = some place_type) (hpoi : (S "poi") ∈ place_type)
    (hprops : result.raw.properties = some properties)
    (hcodes : countryShortCodes context = Except.ok codes) :
    result_to_dict result = Except.ok {
      street_address := properties.address
      region := firstText (S "region") context
      postal_code := firstText (S "postcode") context
      iso_country_code := codes.head?
      city := firstText (S "place") context
      latitude := result.latitude
      longitude := result.longitude
      location_name := some result_text } := by
  have hmem : (S "poi") ∈ place_type.filter (fun y => y == S "poi") :=
    List.mem_filter.mpr ⟨hpoi, by simp⟩
  have hlen : 0 < (place_type.filter (fun y => y == S "poi")).length :=
    List.length_pos.mpr (List.ne_nil_of_mem hmem)
  simp only [result_to_dict, hc, ht, hp, hprops, hcodes, getKey, bind, Except.bind,
    decide_eq_true hlen, if_true]

/-- Evaluation of `result_to_dict` on a well-formed non-POI result. -/
lemma result_to_dict_nonpoi_eq (result : Location) (context : List CtxToken) (result_text : PyStr)
    (place_type : List PyStr) (codes : List PyStr)
    (hc : result.raw.context = some context) (ht : result.raw.text = some result_text)
    (hp : result.raw.place_type = some place_type) (hpoi : (S "poi") ∉ place_type)
    (hcodes : countryShortCodes context = Except.ok codes) :
    result_to_dict result = Except.ok {
      street_address := some (fstr result.raw.address ++ [' '] ++ result_text)
      region := firstText (S "region") context
      postal_code := firstText (S "postcode") context
      iso_country_code := codes.head?
      city := firstText (S "place") context
      latitude := result.latitude
      longitude := result.longitude
      location_name := none } := by
  have hnil : place_type.filter (fun y => y == S "poi") = [] := by
    rw [List.filter_eq_nil_iff]
    intro a ha
    simp only [beq_iff_eq]
    intro h
    exact hpoi (h ▸ ha)
  simp only [result_to_dict, hc, ht, hp, hcodes, getKey, bind, Except.bind, hnil]
  simp

/-- C1: on a geocoder result whose raw dictionary carries the expected
`context`, `text` and `place_type` keys (and whose country tokens carry
short codes, so that the primary mapping succeeds), the produced payload
depends on the POI tag: for a POI result `street_address` is exactly the
nested `properties` sub-object's address field and `location_name` is the
result's text field; for a non-POI result `street_address` is the nested
address field concatenated with the text field separated by one space, and
no `location_name` key is present. -/
theorem result_to_dict_poi_split (result : Location) (context : List CtxToken)
    (result_text : PyStr) (place_type : List PyStr)
    (hc : result.raw.context = some context) (ht : result.raw.text = some result_text)
    (hp : result.raw.place_type = some place_type)
    (hcc : ∀ y ∈ context, (S "country").isPrefixOf y.id = true → y.short_code.isSome = true) :
    ((S "poi") ∈ place_type →
      ∀ properties, result.raw.properties = some properties →
        ∃ d, result_to_dict result = Except.ok d ∧
          d.street_address = properties.address ∧ d.location_name = some result_text) ∧
    ((S "poi") ∉ place_type →
      ∀ a, result.raw.address = some a →
        ∃ d, result_to_dict result = Except.ok d ∧
          d.street_address = some (a ++ [' '] ++ result_text) ∧ d.location_name = none) := by
  have hcodes := countryShortCodes_ok context hcc
  constructor
  · intro hpoi properties hprops
    exact ⟨_, result_to_dict_poi_eq result context result_text place_type properties _
      hc ht hp hpoi hprops hcodes, rfl, rfl⟩
  · intro hpoi a ha
    refine ⟨_, result_to_dict_nonpoi_eq result context result_text place_type _
      hc ht hp hpoi hcodes, ?_, rfl⟩
    simp [ha, fstr]

/-- Witness for C1: a concrete POI result with a nested properties address
and place name, mapped exactly as the claim states. -/
theorem result_to_dict_poi_split_witness :
    ∃ d, result_to_dict poiLoc = Except.ok d ∧
      d.street_address = some (S "1 Main St") ∧ d.location_name = some (S "Store") := by
  obtain ⟨d, hd, h1, h2⟩ := (result_to_dict_poi_split poiLoc goodCtx (S "Store") [S "poi"]
    rfl rfl rfl (by decide)).1 (by decide) { address := some (S "1 Main St") } rfl
  exact ⟨d, hd, h1, h2⟩

/-- C5: when the primary mapping fails on a raw result missing an expected
key (`result_to_dict` raises `KeyError`), `encode_placekey` logs the
failure, makes no lookup call at all, and aborts that address with an
exception (the `TypeError` that follows from `d` staying `None`), producing
no identifier. -/
theorem encode_placekey_mapping_failure (self : Services) (address : PyStr)
    (point_of_interest_name : Option PyStr) (prefer_my_name : Bool)
    (h : result_to_dict (self.geocode address) = Except.error PyError.keyError) :
    encode_placekey self address point_of_interest_name prefer_my_name =
      { result := Except.error PyError.typeError
        logs := [LogEntry.mappingError]
        attempts := [] } := by
  simp only [encode_placekey, h]

/-- Witness for C5: a geocoder response with no `context` key aborts with
the mapping failure logged and zero lookup attempts. -/
theorem encode_placekey_mapping_failure_witness :
    encode_placekey cexServices (S "123 Main St") (some (S "N")) false =
      { result := Except.error PyError.typeError
        logs := [LogEntry.mappingError]
        attempts := [] } :=
  encode_placekey_mapping_failure cexServices (S "123 Main St") (some (S "N")) false (by decide)

/-- C4: per address, `encode_placekey` makes at most two lookup calls, the
second (with the fallback payload) only after the first returned an error
response; and when both lookups error, encode fails with the not-found
`ValueError` whose message carries the fallback payload and second error
while the warning logged at the first failure carries the primary payload
and first error, so the failure diagnostics carry both attempted payloads
and both error messages. -/
theorem encode_placekey_at_most_two_lookups (self : Services) (address : PyStr)
    (point_of_interest_name : Option PyStr) (prefer_my_name : Bool) :
    (encode_placekey self address point_of_interest_name prefer_my_name).attempts.length ≤ 2 ∧
    (∀ d1 d2, (encode_placekey self address point_of_interest_name prefer_my_name).attempts
        = [d1, d2] → ∃ e1, self.lookup_placekey d1 = PKResult.err e1) ∧
    (∀ d1 d2 e1 e2,
      (encode_placekey self address point_of_interest_name prefer_my_name).attempts = [d1, d2] →
      self.lookup_placekey d1 = PKResult.err e1 →
      self.lookup_placekey d2 = PKResult.err e2 →
      (encode_placekey self address point_of_interest_name prefer_my_name).result
          = Except.error (PyError.notFound d2 e2) ∧
      (encode_placekey self address point_of_interest_name prefer_my_name).logs
          = [LogEntry.firstAttemptWarning d1 e1]) := by
  cases h1 : result_to_dict (self.geocode address) with
  | error e =>
    cases e <;> simp [encode_placekey, h1]
  | ok d0 =>
    cases h2 : self.lookup_placekey (apply_poi_name d0 point_of_interest_name prefer_my_name) with
    | ok pk => simp [encode_placekey, h1, h2]
    | err e1 =>
      cases h3 : parse_address (self.geocode address) with
      | error pe => simp [encode_placekey, h1, h2, h3]
      | ok d2 =>
        cases h4 : self.lookup_placekey d2 with
        | ok pk =>
          refine ⟨by simp [encode_placekey, h1, h2, h3, h4], ?_, ?_⟩
          · intro a b hab
            simp only [encode_placekey, h1, h2, h3, h4] at hab
            obtain ⟨rfl, rfl⟩ :
                apply_poi_name d0 point_of_interest_name prefer_my_name = a ∧ d2 = b := by
              simpa using hab
            exact ⟨e1, h2⟩
          · intro a b ea eb hab ha hb
            simp only [encode_placekey, h1, h2, h3, h4] at hab
            obtain ⟨rfl, rfl⟩ :
                apply_poi_name d0 point_of_interest_name prefer_my_name = a ∧ d2 = b := by
              simpa using hab
            rw [h4] at hb
            cases hb
        | err e2 =>
          refine ⟨by simp [encode_placekey, h1, h2, h3, h4], ?_, ?_⟩
          · intro a b hab
            simp only [encode_placekey, h1, h2, h3, h4] at hab
            obtain ⟨rfl, rfl⟩ :
                apply_poi_name d0 point_of_interest_name prefer_my_name = a ∧ d2 = b := by
              simpa using hab
            exact ⟨e1, h2⟩
          · intro a b ea eb hab ha hb
            simp only [encode_placekey, h1, h2, h3, h4] at hab
            obtain ⟨rfl, rfl⟩ :
                apply_poi_name d0 point_of_interest_name prefer_my_name = a ∧ d2 = b := by
              simpa using hab
            rw [h2] at ha
            rw [h4] at hb
            cases ha
            cases hb
            exact ⟨by simp [encode_placekey, h1, h2, h3, h4],
              by simp [encode_placekey, h1, h2, h3, h4]⟩

/-- Witness for C4: with a lookup service that rejects everything, the
concrete run makes its two attempts, raises the not-found error carrying
the fallback payload and second message, and logs the warning carrying the
primary payload and first message. -/
theorem encode_placekey_at_most_two_lookups_witness :
    (encode_placekey wServices (S "123") (some (S "N")) false).attempts.length ≤ 2 ∧
    (encode_placekey wServices (S "123") (some (S "N")) false).result
      = Except.error (PyError.notFound wFallback (S "no match")) ∧
    (encode_placekey wServices (S "123") (some (S "N")) false).logs
      = [LogEntry.firstAttemptWarning wPrimary (S "no match")] := by
  have h := encode_placekey_at_most_two_lookups wServices (S "123") (some (S "N")) false
  have h3 := h.2.2 wPrimary wFallback (S "no match") (S "no match") (by decide) (by decide)
    (by decide)
  exact ⟨h.1, h3.1, h3.2⟩

/-- C8: the context-token extraction used by `result_to_dict` takes, within
a category, the first token whose category id starts with the category
prefix; it yields `None` (not an error) when no token matches; the country
category yields the token's short code rather than its text; the
extraction is invariant under any permutation of the token list that
preserves the per-category filtered subsequences; and the payload produced
by `result_to_dict` takes its city, region, postal code and country code
fields from exactly these extractions. -/
theorem context_token_extraction (pre : PyStr) (context context' : List CtxToken)
    (result : Location) :
    (context.filter (fun y => pre.isPrefixOf y.id) = [] → firstText pre context = none) ∧
    (∀ y ys, context.filter (fun y => pre.isPrefixOf y.id) = y :: ys →
      firstText pre context = some y.text) ∧
    (context.filter (fun y => (S "country").isPrefixOf y.id) = [] →
      countryShortCodes context = Except.ok []) ∧
    (∀ y ys, context.filter (fun y => (S "country").isPrefixOf y.id) = y :: ys →
      (∀ z ∈ y :: ys, z.short_code.isSome = true) →
      ∃ codes, countryShortCodes context = Except.ok codes ∧ codes.head? = y.short_code) ∧
    (context.Perm context' →
      (∀ p ∈ [S "place", S "region", S "postcode", S "country"],
        context.filter (fun y => p.isPrefixOf y.id)
          = context'.filter (fun y => p.isPrefixOf y.id)) →
      firstText (S "place") context = firstText (S "place") context' ∧
      firstText (S "region") context = firstText (S "region") context' ∧
      firstText (S "postcode") context = firstText (S "postcode") context' ∧
      countryShortCodes context = countryShortCodes context') ∧
    (∀ rt pt codes d, result.raw.context = some context → result.raw.text = some rt →
      result.raw.place_type = some pt → countryShortCodes context = Except.ok codes →
      result_to_dict result = Except.ok d →
      d.city = firstText (S "place") context ∧ d.region = firstText (S "region") context ∧
      d.postal_code = firstText (S "postcode") context ∧
      d.iso_country_code = codes.head?) := by
  refine ⟨?_, ?_, ?_, ?_, ?_, ?_⟩
  · intro h
    rw [firstText, h]
    rfl
  · intro y ys h
    rw [firstText, h]
    rfl
  · intro h
    rw [countryShortCodes, h]
    rfl
  · intro y ys h hsome
    rw [countryShortCodes, h, mapM_shortCodes _ hsome]
    refine ⟨_, rfl, ?_⟩
    obtain ⟨sc, hsc⟩ := Option.isSome_iff_exists.mp (hsome y (by simp))
    simp [hsc]
  · intro _ hf
    refine ⟨?_, ?_, ?_, ?_⟩
    · rw [firstText, firstText, hf (S "place") (by simp)]
    · rw [firstText, firstText, hf (S "region") (by simp)]
    · rw [firstText, firstText, hf (S "postcode") (by simp)]
    · rw [countryShortCodes, countryShortCodes, hf (S "country") (by simp)]
  · intro rt pt codes d hc ht hp hcodes hd
    simp only [result_to_dict, hc, ht, hp, hcodes, getKey, bind, Except.bind] at hd
    split at hd
    · split at hd
      · cases hd
      · cases hd
        exact ⟨rfl, rfl, rfl, rfl⟩
    · cases hd
      exact ⟨rfl, rfl, rfl, rfl⟩

/-- Witness for C8: on a concrete context with two place tokens the first
one wins, an absent postcode category yields `None`, and the country
extraction yields the short code "us", not the text "United States". -/
theorem context_token_extraction_witness :
    firstText (S "place") dupCtx = some (S "Kenai") ∧
    firstText (S "postcode") dupCtx = none ∧
    ∃ codes, countryShortCodes dupCtx = Except.ok codes ∧ codes.head? = some (S "us") := by
  have hplace := (context_token_extraction (S "place") dupCtx dupCtx poiLoc).2.1
    { id := S "place.1", text := S "Kenai", short_code := none }
    [{ id := S "place.2", text := S "Soldotna", short_code := none }] (by decide)
  have hpost := (context_token_extraction (S "postcode") dupCtx dupCtx poiLoc).1 (by decide)
  obtain ⟨codes, hcodes, hhead⟩ :=
    (context_token_extraction (S "place") dupCtx dupCtx poiLoc).2.2.2.1
      { id := S "country.1", text := S "United States", short_code := some (S "us") } []
      (by decide) (by decide)
  exact ⟨hplace, hpost, codes, hcodes, hhead⟩

/-- C9 (counterexample): the claim promises that every supplied hint is
merged, but `if point_of_interest_name:` is a truthiness test, so the
supplied empty-string hint is ignored: the payload keeps no
`location_name` key instead of receiving the hint. -/
theorem apply_poi_name_empty_hint_ignored :
    (apply_poi_name hintlessPayload (some (S "")) false).location_name = none ∧
    (apply_poi_name hintlessPayload (some (S "")) true).location_name = none := by
  decide

/-- C9 (amended): for every payload and every supplied non-empty hint, a
payload with no `location_name` key receives the hint, and a payload with
an existing `location_name` is overwritten with the hint exactly when
`prefer_my_name` is true; nothing else in the payload changes. -/
theorem apply_poi_name_nonempty_hint (d : Payload) (name : PyStr) (prefer_my_name : Bool)
    (hname : name ≠ []) :
    apply_poi_name d (some name) prefer_my_name =
      { d with location_name :=
          match d.location_name with
          | none => some name
          | some old => if prefer_my_name then some name else some old } := by
  cases h : d.location_name with
  | none => simp [apply_poi_name, hname, h]
  | some old =>
    by_cases hp : prefer_my_name
    · simp [apply_poi_name, hname, h, hp]
    · simp [apply_poi_name, hname, h, hp]
      rw [← h]

/-- Witness for C9: the three concrete merge outcomes for a non-empty
hint. -/
theorem apply_poi_name_nonempty_hint_witness :
    apply_poi_name hintlessPayload (some (S "Hint")) false =
      { hintlessPayload with location_name := some (S "Hint") } ∧
    apply_poi_name wPrimary (some (S "Hint")) false = wPrimary ∧
    apply_poi_name wPrimary (some (S "Hint")) true =
      { wPrimary with location_name := some (S "Hint") } := by
  refine ⟨?_, ?_, ?_⟩ <;> rw [apply_poi_name_nonempty_hint _ _ _ (by decide)] <;> decide

/-! Lemmas about the batch driver's dictionary and writer operations. -/

/-- Assigning a key that is not the head's key distributes over cons. -/
lemma setKey_cons_ne (p : PyStr × PyStr) (t : Row) (k v : PyStr) (h : ¬(p.1 = k)) :
    setKey (p :: t) k v = p :: setKey t k v := by
  have hb : (p.1 == k) = false := beq_eq_false_iff_ne.mpr h
  by_cases ht : t.any (fun q => q.1 == k) = true
  · simp [setKey, hb, ht, h]
  · simp [setKey, hb, ht, h]

/-- Assigning the head's key overwrites it (and any duplicate in the
tail). -/
lemma setKey_cons_self (p : PyStr × PyStr) (t : Row) (k v : PyStr) (h : p.1 = k) :
    setKey (p :: t) k v = (k, v) :: t.map (fun q => if q.1 == k then (k, v) else q) := by
  have hb : (p.1 == k) = true := beq_iff_eq.mpr h
  simp [setKey, hb, h]

/-- Lookup hits a matching head entry. -/
lemma dictGet_cons_self (q : PyStr × PyStr) (t : Row) (k : PyStr) (h : q.1 = k) :
    dictGet (q :: t) k = some q.2 := by
  unfold dictGet
  rw [List.find?_cons_of_pos]
  · rfl
  · simp [h]

/-- Lookup skips a non-matching head entry. -/
lemma dictGet_cons_ne (q : PyStr × PyStr) (t : Row) (k : PyStr) (h : ¬(q.1 = k)) :
    dictGet (q :: t) k = dictGet t k := by
  unfold dictGet
  rw [List.find?_cons_of_neg]
  simp [h]

/-- After assignment the assigned key maps to the assigned value. -/
lemma dictGet_setKey_self (d : Row) (k v : PyStr) : dictGet (setKey d k v) k = some v := by
  induction d with
  | nil => simp [setKey, dictGet]
  | cons p t ih =>
    by_cases hk : p.1 = k
    · rw [setKey_cons_self p t k v hk, dictGet_cons_self _ _ _ rfl]
    · rw [setKey_cons_ne p t k v hk, dictGet_cons_ne _ _ _ hk]
      exact ih

/-- The overwrite map touches no key other than `k`. -/
lemma dictGet_map_update (t : Row) (k v k' : PyStr) (h : ¬(k' = k)) :
    dictGet (t.map (fun q => if q.1 == k then (k, v) else q)) k' = dictGet t k' := by
  induction t with
  | nil => rfl
  | cons q t ih =>
    rw [List.map_cons]
    by_cases hq : q.1 = k
    · rw [if_pos (beq_iff_eq.mpr hq), dictGet_cons_ne _ _ _ (fun hh => h hh.symm),
        dictGet_cons_ne q t k' (fun hh => h (hh ▸ hq))]
      exact ih
    · rw [if_neg (fun hc => hq (beq_iff_eq.mp hc))]
      by_cases hq' : q.1 = k'
      · rw [dictGet_cons_self _ _ _ hq', dictGet_cons_self _ _ _ hq']
      · rw [dictGet_cons_ne _ _ _ hq', dictGet_cons_ne _ _ _ hq']
        exact ih

/-- Assignment leaves every other key unchanged. -/
lemma dictGet_setKey_ne (d : Row) (k v k' : PyStr) (h : ¬(k' = k)) :
    dictGet (setKey d k v) k' = dictGet d k' := by
  induction d with
  | nil =>
    show dictGet (setKey [] k v) k' = dictGet [] k'
    have he : setKey ([] : Row) k v = [(k, v)] := by simp [setKey]
    rw [he, dictGet_cons_ne _ _ _ (fun hh => h hh.symm)]
  | cons p t ih =>
    by_cases hk : p.1 = k
    · rw [setKey_cons_self p t k v hk, dictGet_cons_ne _ _ _ (fun hh => h hh.symm),
        dictGet_cons_ne p t k' (fun hh => h (hh ▸ hk)), dictGet_map_update t k v k' h]
    · rw [setKey_cons_ne p t k v hk]
      by_cases hq' : p.1 = k'
      · rw [dictGet_cons_self _ _ _ hq', dictGet_cons_self _ _ _ hq']
      · rw [dictGet_cons_ne _ _ _ hq', dictGet_cons_ne _ _ _ hq']
        exact ih

/-- Every key of an assigned row is the new key or a key of the original
row. -/
lemma mem_setKey (d : Row) (k v : PyStr) (p : PyStr × PyStr) (h : p ∈ setKey d k v) :
    p.1 = k ∨ ∃ q ∈ d, p.1 = q.1 := by
  unfold setKey at h
  split at h
  · obtain ⟨q, hq, hfq⟩ := List.mem_map.mp h
    by_cases hk : q.1 = k
    · left
      rw [← hfq]
      simp [beq_iff_eq.mpr hk]
    · right
      refine ⟨q, hq, ?_⟩
      rw [← hfq]
      simp [beq_eq_false_iff_ne.mpr hk]
  · rcases List.mem_append.mp h with h | h
    · right
      exact ⟨p, h, rfl⟩
    · left
      simp at h
      rw [h]

/-- A key held by no entry looks up to `none`. -/
lemma dictGet_eq_none (d : Row) (k : PyStr) (h : ∀ p ∈ d, ¬(p.1 = k)) : dictGet d k = none := by
  rw [dictGet, List.find?_eq_none.mpr]
  · rfl
  · intro p hp
    simpa using h p hp

/-- The writer accepts a row whose keys all appear among the field names
and emits one cell per field name. -/
lemma writerow_ok (fieldnames : List PyStr) (d : Row)
    (h : ∀ p ∈ d, fieldnames.contains p.1 = true) :
    writerow fieldnames d = Except.ok (fieldnames.map (fun f => (dictGet d f).getD [])) := by
  rw [writerow, if_neg]
  intro hcon
  obtain ⟨p, hp, hc⟩ := List.any_eq_true.mp hcon
  rw [h p hp] at hc
  simp at hc

/-- Any successfully written row has exactly one cell per field name. -/
lemma writerow_ok_length (fieldnames : List PyStr) (d : Row) (cells : List PyStr)
    (h : writerow fieldnames d = Except.ok cells) : cells.length = fieldnames.length := by
  unfold writerow at h
  split at h
  · cases h
  · cases h
    simp

/-- Evaluation of one loop body on a row holding exactly the two
configured columns: a successful encode writes the location name, the
normalized address and the placekey; a `ValueError` failure writes the
original name and address with an empty placekey cell; any other failure
escapes. -/
lemma process_row_spec (self : Services) (ac lc : PyStr) (r : Row) (a l : PyStr)
    (hne : ¬(ac = lc)) (hpk1 : ¬(ac = S "placekey")) (hpk2 : ¬(lc = S "placekey"))
    (ha : dictGet r ac = some a) (hl : dictGet r lc = some l)
    (hk : ∀ p ∈ r, p.1 = ac ∨ p.1 = lc) :
    process_row self ac lc r =
      match (encode_placekey self a (some l) false).result with
      | Except.ok (loc, pk) => ([CsvLog.infoRow a l], Except.ok [l, loc.address, pk])
      | Except.error e =>
        if e.isValueError then
          ([CsvLog.infoRow a l, CsvLog.rowError a l e], Except.ok [l, a, []])
        else ([CsvLog.infoRow a l], Except.error e) := by
  have hpknone : dictGet r (S "placekey") = none :=
    dictGet_eq_none r _ (fun p hp => by
      rcases hk p hp with h | h
      · rw [h]; exact hpk1
      · rw [h]; exact hpk2)
  simp only [process_row, ha, hl]
  cases hres : (encode_placekey self a (some l) false).result with
  | ok p =>
    obtain ⟨loc, pk⟩ := p
    have hkeys : ∀ q ∈ setKey (setKey r (S "placekey") pk) ac loc.address,
        ([lc, ac, S "placekey"] : List PyStr).contains q.1 = true := by
      intro q hq
      rcases mem_setKey _ _ _ _ hq with h | ⟨q2, hq2, hq12⟩
      · simp [List.contains, h]
      · rcases mem_setKey _ _ _ _ hq2 with h | ⟨q3, hq3, hq23⟩
        · simp [List.contains, hq12, h]
        · rcases hk q3 hq3 with h | h <;> simp [List.contains, hq12, hq23, h]
    have c1 : dictGet (setKey (setKey r (S "placekey") pk) ac loc.address) lc = some l := by
      rw [dictGet_setKey_ne _ _ _ _ (fun hh => hne hh.symm),
        dictGet_setKey_ne _ _ _ _ hpk2, hl]
    have c2 : dictGet (setKey (setKey r (S "placekey") pk) ac loc.address) ac
        = some loc.address := dictGet_setKey_self _ _ _
    have c3 : dictGet (setKey (setKey r (S "placekey") pk) ac loc.address) (S "placekey")
        = some pk := by
      rw [dictGet_setKey_ne _ _ _ _ (fun hh => hpk1 hh.symm), dictGet_setKey_self]
    simp [writerow_ok _ _ hkeys, c1, c2, c3]
  | error e =>
    cases hval : e.isValueError with
    | true =>
      have hkeys : ∀ q ∈ r, ([lc, ac, S "placekey"] : List PyStr).contains q.1 = true := by
        intro q hq
        rcases hk q hq with h | h <;> simp [List.contains, h]
      simp [writerow_ok _ _ hkeys, hval, ha, hl, hpknone]
    | false =>
      simp [hval]

/-- The row loop on inputs whose per-row encode outcomes are all isolated
by the `except ValueError` handler: every row is written, the logs
accumulate, and no exception escapes. -/
lemma run_rows_spec (self : Services) (ac lc : PyStr) (rows : List Row)
    (hne : ¬(ac = lc)) (hpk1 : ¬(ac = S "placekey")) (hpk2 : ¬(lc = S "placekey"))
    (hrows : ∀ r ∈ rows, ∃ a l, dictGet r ac = some a ∧ dictGet r lc = some l ∧
      (∀ p ∈ r, p.1 = ac ∨ p.1 = lc) ∧
      resultIsolated (encode_placekey self a (some l) false).result = true) :
    run_rows self ac lc rows =
      (rows.map (fun r =>
        match dictGet r ac, dictGet r lc with
        | some a, some l =>
          match (encode_placekey self a (some l) false).result with
          | Except.ok (loc, pk) => [l, loc.address, pk]
          | Except.error _ => [l, a, []]
        | _, _ => []),
       rows.flatMap (fun r =>
        match dictGet r ac, dictGet r lc with
        | some a, some l =>
          match (encode_placekey self a (some l) false).result with
          | Except.ok _ => [CsvLog.infoRow a l]
          | Except.error e => [CsvLog.infoRow a l, CsvLog.rowError a l e]
        | _, _ => []),
       none) := by
  induction rows with
  | nil => rfl
  | cons r rest ih =>
    obtain ⟨a, l, ha, hl, hk, hiso⟩ := hrows r (by simp)
    have hpr := process_row_spec self ac lc r a l hne hpk1 hpk2 ha hl hk
    have ihr := ih (fun q hq => hrows q (List.mem_cons_of_mem _ hq))
    cases hres : (encode_placekey self a (some l) false).result with
    | ok p =>
      obtain ⟨loc, pk⟩ := p
      rw [hres] at hpr
      simp only [run_rows, hpr, ihr, List.map_cons, List.flatMap_cons, ha, hl, hres]
    | error e =>
      have hv : e.isValueError = true := by
        rw [resultIsolated.eq_def, hres] at hiso
        exact hiso
      rw [hres] at hpr
      simp only [hv, if_true] at hpr
      simp only [run_rows, hpr, ihr, List.map_cons, List.flatMap_cons, ha, hl, hres, hv]

/-- C3 (amended): when every input row holds exactly the two configured
columns and every per-row encode outcome is a success or a `ValueError`
(the IdentifierNotFound and UnsupportedCountry failures), the batch writes
every row — failed rows keep their original address and get an empty
placekey cell, with the failure logged — and the output row count equals
the input row count.  (The claim's stronger "any other per-row failure"
clause fails: only `ValueError` is caught, see the counterexample.) -/
theorem encode_csv_valueerror_isolated (self : Services) (ac lc : PyStr) (rows : List Row)
    (hne : ¬(ac = lc)) (hpk1 : ¬(ac = S "placekey")) (hpk2 : ¬(lc = S "placekey"))
    (hrows : ∀ r ∈ rows, ∃ a l, dictGet r ac = some a ∧ dictGet r lc = some l ∧
      (∀ p ∈ r, p.1 = ac ∨ p.1 = lc) ∧
      resultIsolated (encode_placekey self a (some l) false).result = true) :
    (encode_csv self rows ac lc).error = none ∧
    (encode_csv self rows ac lc).rows.length = rows.length ∧
    (encode_csv self rows ac lc).rows = rows.map (fun r =>
      match dictGet r ac, dictGet r lc with
      | some a, some l =>
        match (encode_placekey self a (some l) false).result with
        | Except.ok (loc, pk) => [l, loc.address, pk]
        | Except.error _ => [l, a, []]
      | _, _ => []) ∧
    (encode_csv self rows ac lc).logs = rows.flatMap (fun r =>
      match dictGet r ac, dictGet r lc with
      | some a, some l =>
        match (encode_placekey self a (some l) false).result with
        | Except.ok _ => [CsvLog.infoRow a l]
        | Except.error e => [CsvLog.infoRow a l, CsvLog.rowError a l e]
      | _, _ => []) := by
  have h := run_rows_spec self ac lc rows hne hpk1 hpk2 hrows
  refine ⟨?_, ?_, ?_, ?_⟩ <;> simp [encode_csv, h]

/-- C3 (counterexample): a row whose encode fails with a non-`ValueError`
(here the `TypeError` following a mapping `KeyError`) aborts the whole
batch: the one-row input produces zero output rows, so the output row
count does not equal the input row count. -/
theorem encode_csv_nonvalueerror_aborts :
    (encode_csv cexServices [[(S "Name", S "N"), (S "Address", S "123")]]
      (S "Address") (S "Name")).rows.length = 0 ∧
    (encode_csv cexServices [[(S "Name", S "N"), (S "Address", S "123")]]
      (S "Address") (S "Name")).error = some PyError.typeError ∧
    ([[(S "Name", S "N"), (S "Address", S "123")]] : List Row).length = 1 := by
  decide

/-- Witness for C3: a row whose two lookups both fail (an
IdentifierNotFound `ValueError`) is still written with its original
address and an empty placekey cell, with the failure logged. -/
theorem encode_csv_valueerror_isolated_witness :
    (encode_csv wServices [[(S "Name", S "N"), (S "Address", S "123")]]
      (S "Address") (S "Name")).error = none ∧
    (encode_csv wServices [[(S "Name", S "N"), (S "Address", S "123")]]
      (S "Address") (S "Name")).rows = [[S "N", S "123", []]] ∧
    (encode_csv wServices [[(S "Name", S "N"), (S "Address", S "123")]]
      (S "Address") (S "Name")).logs
      = [CsvLog.infoRow (S "123") (S "N"),
         CsvLog.rowError (S "123") (S "N") (PyError.notFound wFallback (S "no match"))] := by
  have h := encode_csv_valueerror_isolated wServices (S "Address") (S "Name")
    [[(S "Name", S "N"), (S "Address", S "123")]] (by decide) (by decide) (by decide)
    (by
      intro r hr
      simp only [List.mem_singleton] at hr
      subst hr
      exact ⟨S "123", S "N", by decide, by decide, by decide, by decide⟩)
  refine ⟨h.1, ?_, ?_⟩
  · rw [h.2.2.1]
    decide
  · rw [h.2.2.2]
    decide

/-- A loop body that returns written cells wrote exactly three of them. -/
lemma process_row_ok_length (self : Services) (ac lc : PyStr) (r : Row) (logs : List CsvLog)
    (cells : List PyStr) (h : process_row self ac lc r = (logs, Except.ok cells)) :
    cells.length = 3 := by
  unfold process_row at h
  split at h
  · simp at h
  · split at h
    · simp at h
    · split at h
      · have hw := congrArg Prod.snd h
        dsimp only at hw
        simpa using writerow_ok_length _ _ _ hw
      · split at h
        · have hw := congrArg Prod.snd h
          dsimp only at hw
          simpa using writerow_ok_length _ _ _ hw
        · simp at h

/-- Every data row the loop writes has exactly three cells. -/
lemma run_rows_cells_length (self : Services) (ac lc : PyStr) (rows : List Row) :
    ∀ cells ∈ (run_rows self ac lc rows).1, cells.length = 3 := by
  induction rows with
  | nil =>
    intro cells h
    cases h
  | cons r rest ih =>
    intro cells hc
    cases hp : process_row self ac lc r with
    | mk logs res =>
      cases res with
      | error e => simp [run_rows, hp] at hc
      | ok cs =>
        simp only [run_rows, hp] at hc
        rcases List.mem_cons.mp hc with h | h
        · subst h
          exact process_row_ok_length self ac lc r logs cells hp
        · exact ih cells h

/-- C6 (amended): for every input and column configuration the output has
exactly one header row listing exactly the location-name column, the
address column and "placekey", in that order, and every written row body
has exactly those three cells — input columns outside the triple are not
preserved (a row carrying one aborts the run, see the counterexample). -/
theorem encode_csv_header_shape (self : Services) (rows : List Row)
    (address_column location_name_column : PyStr) :
    (encode_csv self rows address_column location_name_column).header
      = [location_name_column, address_column, S "placekey"] ∧
    ∀ cells ∈ (encode_csv self rows address_column location_name_column).rows,
      cells.length = 3 := by
  refine ⟨rfl, ?_⟩
  intro cells hc
  apply run_rows_cells_length self address_column location_name_column rows
  simpa [encode_csv] using hc

/-- C6 (counterexample): the writer is constructed with
`extrasaction = "raise"`, so an input row carrying any column beyond the
fixed triple raises `ValueError` and aborts the run instead of having that
column preserved in the row body. -/
theorem encode_csv_extra_column_aborts :
    (encode_csv wServices [[(S "Name", S "N"), (S "Address", S "123"), (S "Extra", S "zz")]]
      (S "Address") (S "Name")).rows = [] ∧
    (encode_csv wServices [[(S "Name", S "N"), (S "Address", S "123"), (S "Extra", S "zz")]]
      (S "Address") (S "Name")).error
      = some (PyError.valueError (S "dict contains fields not in fieldnames")) := by
  decide

/-- Witness for C6: a concrete run's header is exactly the configured
triple and its written rows all have three cells. -/
theorem encode_csv_header_shape_witness :
    (encode_csv wServices [[(S "Name", S "N"), (S "Address", S "123")]]
      (S "Address") (S "Name")).header = [S "Name", S "Address", S "placekey"] ∧
    ((encode_csv wServices [[(S "Name", S "N"), (S "Address", S "123")]]
      (S "Address") (S "Name")).rows.all (fun cells => cells.length == 3)) = true := by
  refine ⟨(encode_csv_header_shape wServices [[(S "Name", S "N"), (S "Address", S "123")]]
    (S "Address") (S "Name")).1, ?_⟩
  decide

end Placekey
